import Mathlib

/-!
Shallow embedding of the additional-companies product linker
(src/models.py, src/config.py, src/pipedrive_client.py, src/product_linker.py).

Python floats are embedded as rationals (ℚ), Python ints as ℤ, `None`-able
values as `Option`.  Remote calls made through the Pipedrive client are
modelled by an explicit environment (`Env`) of deterministic responses; each
linker-level operation additionally returns the ordered list of remote calls
it issued (`RemoteCall`), so that "no mutating remote call" claims can be
stated.  Python exceptions are modelled with `Except PyError`; the `try`
blocks of the source become explicit matches on those results.
-/

namespace Linker

/-! ## Enumerations (src/models.py) -/

/-- `ProcessCompaniesMode` of src/models.py. -/
inductive ProcessCompaniesMode
  | additionalOnly
  | primaryOnly
  | both
deriving DecidableEq

/-- `ProductNameFormat` of src/models.py
    (`COMPANY_NAME_WITH_PREFIX` is written `companyNameWithPfx`). -/
inductive ProductNameFormat
  | companyName
  | companyNameWithPfx
  | customFormat
deriving DecidableEq

/-- `ValueCalculationMode` of src/models.py. -/
inductive ValueCalculationMode
  | w2Count
  | w2CountTimesPrice
  | fixedPrice
deriving DecidableEq

/-- `QuantityMode` of src/models.py. -/
inductive QuantityMode
  | w2Count
  | alwaysOne
  | custom
deriving DecidableEq

/-- `DuplicateAction` of src/models.py. -/
inductive DuplicateAction
  | update
  | skip
  | error
  | forceNew
deriving DecidableEq

/-- `W2ChangeAction` of src/models.py. -/
inductive W2ChangeAction
  | updateQuantity
  | updatePrice
  | updateBoth
  | skip
deriving DecidableEq

/-- `LinkStatus` of src/models.py. -/
inductive LinkStatus
  | success
  | updated
  | skipped
  | noDealId
  | noCompanies
  | orphaned
  | failedError
deriving DecidableEq

/-- `ProductActionType` of src/models.py. -/
inductive ProductActionType
  | createdCatalog
  | foundCatalog
  | attachedNew
  | updatedQuantity
  | updatedPrice
  | skippedExists
  | error
deriving DecidableEq

/-! ## Data models (src/models.py) -/

/-- `AdditionalCompany` of src/models.py (the opaque `raw_data` dict is dropped:
    the linker never reads it). -/
structure AdditionalCompany where
  company_legal_name : String
  w2_employee_count : Option Int
deriving DecidableEq

/-- `Submission` of src/models.py (`raw_data` dropped as above). -/
structure Submission where
  id : String
  deal_id : Option Int
  primary_company : Option AdditionalCompany
  additional_companies : List AdditionalCompany
  email : String
deriving DecidableEq

/-- `PipedriveProduct` of src/models.py (`prices`, a list of raw dicts never
    read by the linker, is dropped). -/
structure PipedriveProduct where
  id : Int
  name : String
  code : Option String
  active_flag : Bool
deriving DecidableEq

/-- `DealProductAttachment` of src/models.py; the Python field `sum` is named
    `sum_value` here. -/
structure DealProductAttachment where
  id : Int
  product_id : Int
  deal_id : Int
  item_price : ℚ
  quantity : Int
  sum_value : ℚ
  name : String
  comments : Option String := none
deriving DecidableEq

/-- `Deal` of src/models.py. -/
structure Deal where
  id : Int
  title : String
  value : Option ℚ
  stage_id : Int
  pipeline_id : Int
  org_id : Option Int
deriving DecidableEq

/-- `ProductAction` of src/models.py. -/
structure ProductAction where
  company_name : String
  w2_count : Option Int
  action_type : ProductActionType
  product_id : Option Int := none
  attachment_id : Option Int := none
  old_quantity : Option Int := none
  new_quantity : Option Int := none
  old_price : Option ℚ := none
  new_price : Option ℚ := none
  error_message : Option String := none
deriving DecidableEq

/-- `LinkResult` of src/models.py. -/
structure LinkResult where
  submission_id : String
  deal_id : Option Int
  status : LinkStatus
  companies_processed : Nat
  actions : List ProductAction
  total_value_added : ℚ
  error_message : Option String := none
deriving DecidableEq

/-! ## Configuration (src/config.py)

Only the fields read by `PipedriveClient` and `ProductLinker` are kept;
connection strings, migration settings and reporting settings are collaborator
concerns outside the verified components.  `product_name_prefix` is named
`product_name_pfx` here. -/

/-- Behavioural part of `Config` from src/config.py. -/
structure Config where
  process_companies : ProcessCompaniesMode
  product_name_format : ProductNameFormat
  product_name_pfx : String
  value_calculation_mode : ValueCalculationMode
  item_price_per_employee : ℚ
  fixed_product_price : ℚ
  quantity_mode : QuantityMode
  custom_quantity : Int
  duplicate_attachment_action : DuplicateAction
  w2_change_action : W2ChangeAction
  auto_create_products : Bool
  product_visible_to : Int
  product_active_flag : Bool
  skip_orphaned_deals : Bool
  skip_missing_w2 : Bool
  skip_zero_w2 : Bool
  min_w2_count : Int
  max_w2_count : Int
deriving DecidableEq

/-- The `standard` profile defaults of `Config._get_standard_profile`
    (src/config.py) restricted to the behavioural fields. -/
def Config.standardProfile : Config where
  process_companies := .additionalOnly
  product_name_format := .companyName
  product_name_pfx := ""
  value_calculation_mode := .w2CountTimesPrice
  item_price_per_employee := 1
  fixed_product_price := 100
  quantity_mode := .w2Count
  custom_quantity := 1
  duplicate_attachment_action := .update
  w2_change_action := .updateBoth
  auto_create_products := true
  product_visible_to := 3
  product_active_flag := true
  skip_orphaned_deals := true
  skip_missing_w2 := true
  skip_zero_w2 := true
  min_w2_count := 0
  max_w2_count := 10000

/-! ## Exceptions (src/exceptions.py) -/

/-- The Python exception classes that can cross the boundaries modelled here:
    `requests.exceptions.HTTPError`, `RateLimitError`, `APIError` and
    `OrphanedDealError` (src/exceptions.py).  `RateLimitError` is a subclass
    of `APIError`; `HTTPError` and `OrphanedDealError` are not. -/
inductive PyError
  | httpError (status : Nat)
  | rateLimitError (msg : String) (status : Nat)
  | apiError (msg : String) (status : Option Nat)
  | orphanedDealError (msg : String) (deal_id : Int) (submission_id : String)
deriving DecidableEq

/-- Which modelled exceptions an `except APIError` clause catches:
    `RateLimitError` is an `APIError` subclass, the others are unrelated. -/
def PyError.isAPIError : PyError → Bool
  | .rateLimitError _ _ => true
  | .apiError _ _ => true
  | _ => false

/-- `str(e)` of a modelled exception. -/
def PyError.toMessage : PyError → String
  | .httpError status => "HTTP " ++ toString status
  | .rateLimitError msg _ => msg
  | .apiError msg _ => msg
  | .orphanedDealError msg _ _ => msg

/-! ## Remote calls -/

/-- One Pipedrive client method invocation made by the linker, with the data
    it sends.  Used to record the ordered call log of a linker operation. -/
inductive RemoteCall
  | searchProduct (term : String)
  | createProduct (name : String) (code : Option String) (active : Bool) (visible_to : Int)
  | getDeal (deal_id : Int)
  | getDealProducts (deal_id : Int)
  | attachProduct (deal_id : Int) (product_id : Int) (item_price : ℚ) (quantity : Int)
      (comments : Option String)
  | updateAttachment (deal_id : Int) (attachment_id : Int) (item_price : Option ℚ)
      (quantity : Option Int)
deriving DecidableEq

/-- Whether a remote call writes to Pipedrive (create / attach / update)
    rather than reading from it. -/
def RemoteCall.isMutating : RemoteCall → Bool
  | .createProduct _ _ _ _ => true
  | .attachProduct _ _ _ _ _ => true
  | .updateAttachment _ _ _ _ => true
  | _ => false

/-- Deterministic environment of remote responses: one function per
    `PipedriveClient` method used by `ProductLinker`.  An `Except.error`
    models the client method raising that exception. -/
structure Env where
  search_product_by_name : String → Except PyError (Option PipedriveProduct)
  create_product : String → Option String → Bool → Int → Except PyError PipedriveProduct
  get_deal_by_id : Int → Except PyError (Option Deal)
  get_deal_products : Int → Except PyError (List DealProductAttachment)
  attach_product_to_deal : Int → Int → ℚ → Int → Option String →
      Except PyError DealProductAttachment
  update_deal_product_attachment : Int → Int → Option ℚ → Option Int →
      Except PyError DealProductAttachment

/-! ## Remote gateway (src/pipedrive_client.py, `_make_request`)

The transport is modelled as a function from the attempt index to what that
attempt observes on the wire: an HTTP response with a status code and a
decoded body, a timeout, or another transport error. -/

/-- What one HTTP attempt observes, parameterised by the decoded body type. -/
inductive AttemptOutcome (α : Type)
  | httpStatus (code : Nat) (body : α)
  | timeout
  | transportFailure (msg : String)

/-- Loop body of `PipedriveClient._make_request` (src/pipedrive_client.py
    lines 76-117).  `fuel` is `max_retries - attempt`; the fuel-0 fall-through
    is the `raise APIError("Unexpected error in request handling")` after the
    loop.  Per iteration the call counter `calls` is incremented once
    (`self.api_call_count += 1`) and every `time.sleep` is appended to
    `sleeps` (in seconds).  Status 429 backs off `2 ** attempt` and retries
    unless this is the last attempt, in which case `RateLimitError` is
    raised.  Any other `raise_for_status` error (status ≥ 400) raises
    `requests.exceptions.HTTPError`, which is a subclass of
    `RequestException` and is therefore caught by the generic handler at line
    111: it backs off `1 * (attempt + 1)` and retries, raising
    `APIError("Request failed: ...")` with no status code once the budget is
    spent.  Timeouts behave the same with the timeout message. -/
def makeRequestLoop (outcomes : Nat → AttemptOutcome α) (max_retries : Nat) :
    Nat → Nat → Nat → List Nat → Except PyError α × Nat × List Nat
  | 0, _, calls, sleeps =>
      (.error (.apiError "Unexpected error in request handling" none), calls, sleeps)
  | fuel + 1, attempt, calls, sleeps =>
      let calls := calls + 1
      match outcomes attempt with
      | .httpStatus code body =>
          if code = 429 then
            if attempt < max_retries - 1 then
              makeRequestLoop outcomes max_retries fuel (attempt + 1) calls
                (sleeps ++ [2 ^ attempt])
            else
              (.error (.rateLimitError "Rate limit exceeded after retries" 429), calls, sleeps)
          else if 400 ≤ code then
            if attempt < max_retries - 1 then
              makeRequestLoop outcomes max_retries fuel (attempt + 1) calls
                (sleeps ++ [1 * (attempt + 1)])
            else
              (.error (.apiError ("Request failed: HTTP " ++ toString code) none),
                calls, sleeps)
          else
            (.ok body, calls, sleeps)
      | .timeout =>
          if attempt < max_retries - 1 then
            makeRequestLoop outcomes max_retries fuel (attempt + 1) calls
              (sleeps ++ [1 * (attempt + 1)])
          else
            (.error (.apiError "Request timeout after retries" none), calls, sleeps)
      | .transportFailure msg =>
          if attempt < max_retries - 1 then
            makeRequestLoop outcomes max_retries fuel (attempt + 1) calls
              (sleeps ++ [1 * (attempt + 1)])
          else
            (.error (.apiError ("Request failed: " ++ msg) none), calls, sleeps)

/-- `PipedriveClient._make_request` over a modelled transport: returns the
    outcome together with the number of attempts made (= increments of
    `api_call_count`) and the list of backoff sleeps, in seconds, in order.
    `max_retries` defaults to 3 at every call site. -/
def makeRequest (outcomes : Nat → AttemptOutcome α) (max_retries : Nat := 3) :
    Except PyError α × Nat × List Nat :=
  makeRequestLoop outcomes max_retries max_retries 0 0 []

/-- Decoded body of a deal-lookup response as read by `get_deal_by_id`:
    the boolean `success` field and the optional parsed `data`. -/
structure DealResponse where
  success : Bool
  data : Option Deal

/-- `PipedriveClient.get_deal_by_id` (src/pipedrive_client.py lines 291-319)
    over the modelled transport.  The `except requests.exceptions.HTTPError`
    clause (return `None` on 404, wrap otherwise) is modelled faithfully even
    though `_make_request` can never let an `HTTPError` escape; exceptions it
    does not catch propagate. -/
def getDealByIdRaw (outcomes : Nat → AttemptOutcome DealResponse) (deal_id : Int) :
    Except PyError (Option Deal) × Nat × List Nat :=
  match makeRequest outcomes 3 with
  | (.ok resp, calls, sleeps) =>
      if !resp.success then (.ok none, calls, sleeps)
      else
        match resp.data with
        | none => (.ok none, calls, sleeps)
        | some d => (.ok (some d), calls, sleeps)
  | (.error (.httpError 404), calls, sleeps) => (.ok none, calls, sleeps)
  | (.error (.httpError status), calls, sleeps) =>
      (.error (.apiError ("Failed to fetch deal " ++ toString deal_id ++ ": HTTP "
        ++ toString status) none), calls, sleeps)
  | (.error e, calls, sleeps) => (.error e, calls, sleeps)

/-! ## Product linker (src/product_linker.py) -/

/-- Python `str.strip()` as used by `_format_product_name`: drop leading and
    trailing whitespace. -/
def pyStrip (s : String) : String :=
  String.mk
    (((s.toList.dropWhile Char.isWhitespace).reverse.dropWhile Char.isWhitespace).reverse)

/-- Python `str.rstrip(".")`: drop every trailing period. -/
def rstripPeriods (s : String) : String :=
  String.mk ((s.toList.reverse.dropWhile (fun c => c = '.')).reverse)

/-- `ProductLinker._validate_company` (src/product_linker.py lines 312-348):
    returns `some message` when validation fails, `none` when it passes.
    A missing W2 count passes unless `skip_missing_w2` is set; a zero count
    fails only under `skip_zero_w2`; the minimum and maximum bounds are each
    enforced only when the configured bound is positive. -/
def validate_company (cfg : Config) (company : AdditionalCompany) : Option String :=
  match company.w2_employee_count with
  | none => if cfg.skip_missing_w2 then some "Missing W2 employee count" else none
  | some n =>
      if n = 0 ∧ cfg.skip_zero_w2 then some "W2 employee count is zero"
      else if 0 < cfg.min_w2_count ∧ n < cfg.min_w2_count then
        some ("W2 count (" ++ toString n ++ ") below minimum ("
          ++ toString cfg.min_w2_count ++ ")")
      else if 0 < cfg.max_w2_count ∧ cfg.max_w2_count < n then
        some ("W2 count (" ++ toString n ++ ") exceeds maximum ("
          ++ toString cfg.max_w2_count ++ ")")
      else none

/-- `ProductLinker._format_product_name` (lines 350-376). -/
def format_product_name (cfg : Config) (company_name : String) : String :=
  let name := rstripPeriods (pyStrip company_name)
  match cfg.product_name_format with
  | .companyName => name
  | .companyNameWithPfx => cfg.product_name_pfx ++ name
  | .customFormat => name

/-- `ProductLinker._calculate_quantity_and_price` (lines 430-471). -/
def calculate_quantity_and_price (cfg : Config) (w2_count : Option Int) : Int × ℚ :=
  let effective_w2 := w2_count.getD 1
  let quantity : Int :=
    match cfg.quantity_mode with
    | .w2Count => effective_w2
    | .alwaysOne => 1
    | .custom => cfg.custom_quantity
  let price : ℚ :=
    match cfg.value_calculation_mode with
    | .w2Count => (effective_w2 : ℚ)
    | .w2CountTimesPrice => cfg.item_price_per_employee
    | .fixedPrice => cfg.fixed_product_price
  (quantity, price)

/-- `ProductLinker._find_existing_attachment` (lines 473-489): first
    attachment in the list whose product id equals the target product id. -/
def find_existing_attachment (product_id : Int)
    (attachments : List DealProductAttachment) : Option DealProductAttachment :=
  attachments.find? (fun a => a.product_id == product_id)

/-- `ProductLinker._get_companies_to_process` (lines 194-222). -/
def get_companies_to_process (cfg : Config) (submission : Submission) :
    List AdditionalCompany :=
  (if cfg.process_companies = .primaryOnly ∨ cfg.process_companies = .both then
    (match submission.primary_company with
     | some p => [p]
     | none => [])
  else []) ++
  (if cfg.process_companies = .additionalOnly ∨ cfg.process_companies = .both then
    submission.additional_companies
  else [])

/-- `ProductLinker._find_or_create_product` (lines 378-428).  Returns the
    `(product?, catalog action?)` pair (an uncaught exception from the search
    propagates as `.error`), together with the issued remote calls.  In dry
    run a creation is simulated with the dummy product id 999999. -/
def find_or_create_product (cfg : Config) (env : Env) (product_name : String)
    (dry_run : Bool) :
    Except PyError (Option PipedriveProduct × Option ProductActionType) × List RemoteCall :=
  match env.search_product_by_name product_name with
  | .error e => (.error e, [.searchProduct product_name])
  | .ok (some product) =>
      (.ok (some product, some .foundCatalog), [.searchProduct product_name])
  | .ok none =>
      if cfg.auto_create_products then
        if dry_run then
          (.ok (some
            { id := 999999, name := product_name, code := none, active_flag := true },
            some .createdCatalog), [.searchProduct product_name])
        else
          match env.create_product product_name none cfg.product_active_flag
              cfg.product_visible_to with
          | .ok product =>
              (.ok (some product, some .createdCatalog),
                [.searchProduct product_name,
                 .createProduct product_name none cfg.product_active_flag
                   cfg.product_visible_to])
          | .error e =>
              if e.isAPIError then
                (.ok (none, none),
                  [.searchProduct product_name,
                   .createProduct product_name none cfg.product_active_flag
                     cfg.product_visible_to])
              else
                (.error e,
                  [.searchProduct product_name,
                   .createProduct product_name none cfg.product_active_flag
                     cfg.product_visible_to])
      else
        (.ok (none, none), [.searchProduct product_name])

/-- `ProductLinker._attach_new_product` (lines 702-766).  Only `APIError` is
    caught (becoming an error action); other exceptions propagate. -/
def attach_new_product (env : Env) (company : AdditionalCompany)
    (product : PipedriveProduct) (quantity : Int) (price : ℚ) (deal_id : Int)
    (dry_run : Bool) : Except PyError ProductAction × List RemoteCall :=
  if dry_run then
    (.ok { company_name := company.company_legal_name
           w2_count := company.w2_employee_count
           action_type := .attachedNew
           product_id := some product.id
           attachment_id := none
           new_quantity := some quantity
           new_price := some price }, [])
  else
    let comments := "AUTO_ATTACHED|company:" ++ company.company_legal_name
    let call := RemoteCall.attachProduct deal_id product.id price quantity (some comments)
    match env.attach_product_to_deal deal_id product.id price quantity (some comments) with
    | .ok attachment =>
        (.ok { company_name := company.company_legal_name
               w2_count := company.w2_employee_count
               action_type := .attachedNew
               product_id := some product.id
               attachment_id := some attachment.id
               new_quantity := some quantity
               new_price := some price }, [call])
    | .error e =>
        if e.isAPIError then
          (.ok { company_name := company.company_legal_name
                 w2_count := company.w2_employee_count
                 action_type := .error
                 product_id := some product.id
                 error_message := some ("Failed to attach product: " ++ e.toMessage) },
            [call])
        else
          (.error e, [call])

/-- `ProductLinker._update_attachment` (lines 576-700). -/
def update_attachment (cfg : Config) (env : Env) (company : AdditionalCompany)
    (product : PipedriveProduct) (existing_attachment : DealProductAttachment)
    (new_quantity : Int) (new_price : ℚ) (deal_id : Int) (dry_run : Bool) :
    Except PyError ProductAction × List RemoteCall :=
  let quantity_changed : Bool := existing_attachment.quantity != new_quantity
  let price_changed : Bool :=
    decide ((1 : ℚ)/100 < |existing_attachment.item_price - new_price|)
  let skipAction : ProductAction :=
    { company_name := company.company_legal_name
      w2_count := company.w2_employee_count
      action_type := .skippedExists
      product_id := some product.id
      attachment_id := some existing_attachment.id
      old_quantity := some existing_attachment.quantity
      new_quantity := some new_quantity
      old_price := some existing_attachment.item_price
      new_price := some new_price }
  match cfg.w2_change_action with
  | .skip => (.ok skipAction, [])
  | wca =>
      let update_quantity : Bool :=
        match wca with
        | .updateQuantity => quantity_changed
        | .updateBoth => quantity_changed
        | _ => false
      let update_price : Bool :=
        match wca with
        | .updatePrice => price_changed
        | .updateBoth => price_changed
        | _ => false
      if !update_quantity && !update_price then (.ok skipAction, [])
      else if dry_run then
        let action_type :=
          if update_quantity && update_price then ProductActionType.updatedQuantity
          else if update_quantity then ProductActionType.updatedQuantity
          else ProductActionType.updatedPrice
        (.ok { company_name := company.company_legal_name
               w2_count := company.w2_employee_count
               action_type := action_type
               product_id := some product.id
               attachment_id := some existing_attachment.id
               old_quantity := some existing_attachment.quantity
               new_quantity := some (if update_quantity then new_quantity
                 else existing_attachment.quantity)
               old_price := some existing_attachment.item_price
               new_price := some (if update_price then new_price
                 else existing_attachment.item_price) }, [])
      else
        let sent_price : Option ℚ := if update_price then some new_price else none
        let sent_quantity : Option Int := if update_quantity then some new_quantity else none
        let call := RemoteCall.updateAttachment deal_id existing_attachment.id
          sent_price sent_quantity
        match env.update_deal_product_attachment deal_id existing_attachment.id
            sent_price sent_quantity with
        | .ok updated_attachment =>
            let action_type :=
              if update_quantity && update_price then ProductActionType.updatedQuantity
              else if update_quantity then ProductActionType.updatedQuantity
              else ProductActionType.updatedPrice
            (.ok { company_name := company.company_legal_name
                   w2_count := company.w2_employee_count
                   action_type := action_type
                   product_id := some product.id
                   attachment_id := some updated_attachment.id
                   old_quantity := some existing_attachment.quantity
                   new_quantity := some updated_attachment.quantity
                   old_price := some existing_attachment.item_price
                   new_price := some updated_attachment.item_price }, [call])
        | .error e =>
            if e.isAPIError then
              (.ok { company_name := company.company_legal_name
                     w2_count := company.w2_employee_count
                     action_type := .error
                     product_id := some product.id
                     error_message := some ("Failed to update attachment: "
                       ++ e.toMessage) }, [call])
            else
              (.error e, [call])

/-- `ProductLinker._handle_duplicate_attachment` (lines 491-574).  The values
    match when the quantities are equal and the prices differ by strictly
    less than 0.01. -/
def handle_duplicate_attachment (cfg : Config) (env : Env)
    (company : AdditionalCompany) (product : PipedriveProduct)
    (existing_attachment : DealProductAttachment) (new_quantity : Int)
    (new_price : ℚ) (deal_id : Int) (dry_run : Bool) :
    Except PyError ProductAction × List RemoteCall :=
  let skipAction : ProductAction :=
    { company_name := company.company_legal_name
      w2_count := company.w2_employee_count
      action_type := .skippedExists
      product_id := some product.id
      attachment_id := some existing_attachment.id
      old_quantity := some existing_attachment.quantity
      new_quantity := some new_quantity
      old_price := some existing_attachment.item_price
      new_price := some new_price }
  if existing_attachment.quantity = new_quantity ∧
      |existing_attachment.item_price - new_price| < (1 : ℚ)/100 then
    (.ok skipAction, [])
  else
    match cfg.duplicate_attachment_action with
    | .skip => (.ok skipAction, [])
    | .update =>
        update_attachment cfg env company product existing_attachment new_quantity
          new_price deal_id dry_run
    | .error =>
        (.ok { company_name := company.company_legal_name
               w2_count := company.w2_employee_count
               action_type := .error
               product_id := some product.id
               error_message := some "Product already attached (configured to error)" },
          [])
    | .forceNew =>
        attach_new_product env company product new_quantity new_price deal_id dry_run

/-- The attachment-reconciliation step of `ProductLinker._process_company`
    (lines 275-295): look up the first existing attachment for the product
    and either handle the duplicate or attach a new product. -/
def reconcile_attachment (cfg : Config) (env : Env) (company : AdditionalCompany)
    (product : PipedriveProduct) (current_attachments : List DealProductAttachment)
    (quantity : Int) (price : ℚ) (deal_id : Int) (dry_run : Bool) :
    Except PyError ProductAction × List RemoteCall :=
  match find_existing_attachment product.id current_attachments with
  | some existing_attachment =>
      handle_duplicate_attachment cfg env company product existing_attachment
        quantity price deal_id dry_run
  | none =>
      attach_new_product env company product quantity price deal_id dry_run

/-- Body of the `try` block of `ProductLinker._process_company`
    (lines 243-301), before the generic `except Exception` handler.  Note the
    final overwrite: whenever the catalog step returned an action type
    (`found_catalog` or `created_catalog` — both truthy) and the action is
    not an error, `action.action_type` is replaced by the catalog action
    type. -/
def process_company_inner (cfg : Config) (env : Env) (company : AdditionalCompany)
    (deal_id : Int) (current_attachments : List DealProductAttachment)
    (dry_run : Bool) : Except PyError ProductAction × List RemoteCall :=
  match validate_company cfg company with
  | some validation_error =>
      (.ok { company_name := company.company_legal_name
             w2_count := company.w2_employee_count
             action_type := .error
             error_message := some validation_error }, [])
  | none =>
      let product_name := format_product_name cfg company.company_legal_name
      match find_or_create_product cfg env product_name dry_run with
      | (.error e, log) => (.error e, log)
      | (.ok (none, _), log) =>
          (.ok { company_name := company.company_legal_name
                 w2_count := company.w2_employee_count
                 action_type := .error
                 error_message := some "Failed to find or create product" }, log)
      | (.ok (some product, catalog_action), log) =>
          let qp := calculate_quantity_and_price cfg company.w2_employee_count
          match reconcile_attachment cfg env company product current_attachments
              qp.1 qp.2 deal_id dry_run with
          | (.error e, log2) => (.error e, log ++ log2)
          | (.ok action, log2) =>
              let action :=
                match catalog_action with
                | some ca =>
                    if action.action_type ≠ .error then
                      { action with action_type := ca }
                    else action
                | none => action
              (.ok action, log ++ log2)

/-- `ProductLinker._process_company` (lines 224-310): the generic
    `except Exception` handler turns any escaped exception into an error
    action carrying `str(e)`. -/
def process_company (cfg : Config) (env : Env) (company : AdditionalCompany)
    (deal_id : Int) (current_attachments : List DealProductAttachment)
    (dry_run : Bool) : ProductAction × List RemoteCall :=
  match process_company_inner cfg env company deal_id current_attachments dry_run with
  | (.ok action, log) => (action, log)
  | (.error e, log) =>
      ({ company_name := company.company_legal_name
         w2_count := company.w2_employee_count
         action_type := .error
         error_message := some e.toMessage }, log)

/-- Per-action contribution to `total_value` in the company loop of
    `link_submission` (lines 154-161): `new_quantity * new_price` for
    attach/update actions with both fields present, 0 otherwise. -/
def action_value (a : ProductAction) : ℚ :=
  if a.action_type = .attachedNew ∨ a.action_type = .updatedQuantity ∨
      a.action_type = .updatedPrice then
    match a.new_quantity, a.new_price with
    | some q, some p => (q : ℚ) * p
    | _, _ => 0
  else 0

/-- The company loop of `link_submission` (lines 144-161): processes each
    company in order, accumulating the action list, the total value added and
    the issued remote calls. -/
def process_all (cfg : Config) (env : Env) (deal_id : Int)
    (current_attachments : List DealProductAttachment) (dry_run : Bool) :
    List AdditionalCompany → List ProductAction × ℚ × List RemoteCall
  | [] => ([], 0, [])
  | company :: rest =>
      let ar := process_company cfg env company deal_id current_attachments dry_run
      let tl := process_all cfg env deal_id current_attachments dry_run rest
      (ar.1 :: tl.1, action_value ar.1 + tl.2.1, ar.2 ++ tl.2.2)

/-- Status determination of `link_submission` (lines 163-182) over the
    assembled action list. -/
def overall_status (actions : List ProductAction) : LinkStatus :=
  let has_success := actions.any (fun a =>
    a.action_type == .attachedNew || a.action_type == .updatedQuantity ||
      a.action_type == .updatedPrice)
  let has_errors := actions.any (fun a => a.action_type == .error)
  if has_errors && !has_success then .failedError
  else if has_success then .success
  else if actions.any (fun a => a.action_type == .skippedExists) then .skipped
  else .failedError

/-- `ProductLinker.link_submission` (lines 58-192).  An `Except.error` result
    models an exception escaping the method (the `OrphanedDealError` raise,
    or a non-`APIError` exception from the deal lookups). -/
def link_submission (cfg : Config) (env : Env) (submission : Submission)
    (dry_run : Bool) : Except PyError LinkResult × List RemoteCall :=
  match submission.deal_id with
  | none =>
      (.ok { submission_id := submission.id
             deal_id := none
             status := .noDealId
             companies_processed := 0
             actions := []
             total_value_added := 0
             error_message := some "No dealId in submission" }, [])
  | some deal_id =>
      let companies := get_companies_to_process cfg submission
      if companies.isEmpty then
        (.ok { submission_id := submission.id
               deal_id := some deal_id
               status := .noCompanies
               companies_processed := 0
               actions := []
               total_value_added := 0
               error_message := some "No companies to process" }, [])
      else
        match env.get_deal_by_id deal_id with
        | .error e =>
            if e.isAPIError then
              (.ok { submission_id := submission.id
                     deal_id := some deal_id
                     status := .failedError
                     companies_processed := 0
                     actions := []
                     total_value_added := 0
                     error_message := some ("Failed to verify deal: " ++ e.toMessage) },
                [.getDeal deal_id])
            else (.error e, [.getDeal deal_id])
        | .ok none =>
            if cfg.skip_orphaned_deals then
              (.ok { submission_id := submission.id
                     deal_id := some deal_id
                     status := .orphaned
                     companies_processed := 0
                     actions := []
                     total_value_added := 0
                     error_message := some ("Deal " ++ toString deal_id
                       ++ " not found in Pipedrive") }, [.getDeal deal_id])
            else
              (.error (.orphanedDealError ("Deal " ++ toString deal_id ++ " not found")
                deal_id submission.id), [.getDeal deal_id])
        | .ok (some _deal) =>
            match env.get_deal_products deal_id with
            | .error e =>
                if e.isAPIError then
                  (.ok { submission_id := submission.id
                         deal_id := some deal_id
                         status := .failedError
                         companies_processed := 0
                         actions := []
                         total_value_added := 0
                         error_message := some ("Failed to fetch deal products: "
                           ++ e.toMessage) }, [.getDeal deal_id, .getDealProducts deal_id])
                else (.error e, [.getDeal deal_id, .getDealProducts deal_id])
            | .ok current_attachments =>
                let pr := process_all cfg env deal_id current_attachments dry_run companies
                (.ok { submission_id := submission.id
                       deal_id := some deal_id
                       status := overall_status pr.1
                       companies_processed := companies.length
                       actions := pr.1
                       total_value_added := pr.2.1
                       error_message := none },
                  [.getDeal deal_id, .getDealProducts deal_id] ++ pr.2.2)

/-- Final-status rule as the specification states it (spec §4.5), written
    from the spec's words for comparison with the status computed by
    `link_submission`: some error action and no successful attach/update
    action gives failed-error; else some successful action gives success
    (even alongside errors); else some skipped-exists action gives skipped;
    otherwise failed-error. -/
def spec_final_status (actions : List ProductAction) : LinkStatus :=
  if (∃ a ∈ actions, a.action_type = .error) ∧
      ¬ ∃ a ∈ actions, a.action_type = .attachedNew ∨
        a.action_type = .updatedQuantity ∨ a.action_type = .updatedPrice then
    .failedError
  else if ∃ a ∈ actions, a.action_type = .attachedNew ∨
      a.action_type = .updatedQuantity ∨ a.action_type = .updatedPrice then
    .success
  else if ∃ a ∈ actions, a.action_type = .skippedExists then .skipped
  else .failedError

/-! ## Success worlds (for the dry-run / real-run comparison) -/

/-- A remote world in which every call succeeds: deterministic read results
    plus the server-side result of each mutating call.  This models the
    claim's "real run in which every mutating remote call succeeds". -/
structure SuccessWorld where
  search : String → Option PipedriveProduct
  created : String → Option String → Bool → Int → PipedriveProduct
  deal : Int → Option Deal
  deal_products : Int → List DealProductAttachment
  attached : Int → Int → ℚ → Int → Option String → DealProductAttachment
  updated : Int → Int → Option ℚ → Option Int → DealProductAttachment

/-- The environment in which every remote call succeeds with the world's
    result. -/
def SuccessWorld.toEnv (w : SuccessWorld) : Env where
  search_product_by_name := fun n => .ok (w.search n)
  create_product := fun n c a v => .ok (w.created n c a v)
  get_deal_by_id := fun d => .ok (w.deal d)
  get_deal_products := fun d => .ok (w.deal_products d)
  attach_product_to_deal := fun d p pr q c => .ok (w.attached d p pr q c)
  update_deal_product_attachment := fun d a pr q => .ok (w.updated d a pr q)

/-- Created-product identifiers are fresh for this company against the
    deal's attachment list: neither the dry-run placeholder id 999999 nor
    the id the world assigns to a product created for this company's
    formatted name collides with an already-attached product id.  Trivially
    satisfied when the search finds the product or auto-create is off. -/
def fresh_create_ids (cfg : Config) (w : SuccessWorld)
    (atts : List DealProductAttachment) (company : AdditionalCompany) : Prop :=
  w.search (format_product_name cfg company.company_legal_name) = none →
  cfg.auto_create_products = true →
  ∀ a ∈ atts, a.product_id ≠ 999999 ∧
    a.product_id ≠ (w.created (format_product_name cfg company.company_legal_name)
      none cfg.product_active_flag cfg.product_visible_to).id

/-! ## Concrete fixtures for scenario theorems, counterexamples and witnesses -/

/-- Configuration of the C1 scenario: the standard profile
    (W2_COUNT_TIMES_PRICE, quantity mode W2_COUNT) with the per-employee
    price set to 2. -/
def c1Config : Config := { Config.standardProfile with item_price_per_employee := 2 }

/-- A company with 50 W2 employees. -/
def c1Company : AdditionalCompany :=
  { company_legal_name := "Acme", w2_employee_count := some 50 }

/-- A submission holding `c1Company` and deal id 1. -/
def c1Submission : Submission :=
  { id := "s1", deal_id := some 1, primary_company := none,
    additional_companies := [c1Company], email := "a@b.c" }

/-- The deal the fixture environment serves for any id. -/
def fixtureDeal : Deal :=
  { id := 1, title := "D", value := none, stage_id := 1, pipeline_id := 1, org_id := none }

/-- An all-success world: the catalog is empty (searches find nothing),
    creation returns product id 42, attaching returns attachment id 7
    echoing the sent values, updates apply the sent fields, and the deal
    exists with no attachments. -/
def fixtureWorld : SuccessWorld where
  search := fun _ => none
  created := fun n _ _ _ => { id := 42, name := n, code := none, active_flag := true }
  deal := fun _ => some fixtureDeal
  deal_products := fun _ => []
  attached := fun d p pr q c =>
    { id := 7, product_id := p, deal_id := d, item_price := pr, quantity := q,
      sum_value := pr * q, name := "", comments := c }
  updated := fun d a pr q =>
    { id := a, product_id := 0, deal_id := d, item_price := pr.getD 0,
      quantity := q.getD 0, sum_value := 0, name := "" }

/-- The environment of `fixtureWorld`. -/
def fixtureEnv : Env := fixtureWorld.toEnv

/-- A transport that answers HTTP 500 (a non-retryable status per the spec)
    on every attempt. -/
def c4Outcomes : Nat → AttemptOutcome Unit := fun _ => .httpStatus 500 ()

/-- A transport that answers HTTP 404 with an empty body on every attempt of
    a deal lookup. -/
def c404DealOutcomes : Nat → AttemptOutcome DealResponse :=
  fun _ => .httpStatus 404 { success := false, data := none }

/-- Environment whose deal lookup raises exactly what
    `get_deal_by_id` raises on an all-404 transport
    (`APIError("Request failed: HTTP 404")`). -/
def c5Env : Env :=
  { fixtureEnv with get_deal_by_id := fun _ => .error (.apiError "Request failed: HTTP 404" none) }

/-- A submission with deal id 7 and one company. -/
def c5Submission : Submission :=
  { id := "s5", deal_id := some 7, primary_company := none,
    additional_companies := [c1Company], email := "" }

/-- A transport that answers HTTP 429 on every attempt. -/
def c7AllRateLimited : Nat → AttemptOutcome Unit := fun _ => .httpStatus 429 ()

/-- A transport that answers HTTP 429 on the first attempt and then succeeds
    with body 77. -/
def c7ThenSuccess : Nat → AttemptOutcome Nat :=
  fun i => if i = 0 then .httpStatus 429 0 else .httpStatus 200 77

/-- Target product of the C3 counterexample. -/
def c3Product : PipedriveProduct :=
  { id := 42, name := "Acme", code := none, active_flag := true }

/-- First attachment for product 42 on the deal: quantity 3 at price 9
    (a mismatch against computed (3, 7)). -/
def c3FirstAttachment : DealProductAttachment :=
  { id := 6, product_id := 42, deal_id := 1, item_price := 9, quantity := 3,
    sum_value := 27, name := "Acme" }

/-- Second attachment for product 42 on the deal: quantity 3 at price 7
    (an exact match against computed (3, 7)). -/
def c3SecondAttachment : DealProductAttachment :=
  { id := 7, product_id := 42, deal_id := 1, item_price := 7, quantity := 3,
    sum_value := 21, name := "Acme" }

/-- Attachment list containing a mismatched entry for the product before a
    matching one. -/
def c3Attachments : List DealProductAttachment := [c3FirstAttachment, c3SecondAttachment]

/-- Standard profile with duplicate policy = error. -/
def c3ErrorConfig : Config :=
  { Config.standardProfile with duplicate_attachment_action := .error }

/-- Standard profile with duplicate policy = update (explicit). -/
def c3UpdateConfig : Config :=
  { Config.standardProfile with duplicate_attachment_action := .update }

/-- Standard profile with both skip flags off (W2 of 0 or missing passes). -/
def c8Config : Config :=
  { Config.standardProfile with skip_missing_w2 := false, skip_zero_w2 := false }

/-- A company whose W2 count is negative. -/
def c8Company : AdditionalCompany :=
  { company_legal_name := "NegCo", w2_employee_count := some (-1) }

/-- Existing attachment for product 42 whose price is exactly 0.01 above the
    computed price 5 used in the C10 witness. -/
def c10Attachment : DealProductAttachment :=
  { id := 7, product_id := 42, deal_id := 1, item_price := 501/100, quantity := 50,
    sum_value := 0, name := "Acme" }

/-- Standard profile with duplicate policy = force-new. -/
def c10ForceNewConfig : Config :=
  { Config.standardProfile with duplicate_attachment_action := .forceNew }

/-- Existing attachment with quantity 10 and price 5 for the C6 scenario. -/
def c6Attachment : DealProductAttachment :=
  { id := 7, product_id := 42, deal_id := 1, item_price := 5, quantity := 10,
    sum_value := 50, name := "Acme" }

/-- Environment whose update endpoint applies the sent fields to
    `c6Attachment` (the server-side view of that attachment). -/
def c6Env : Env :=
  { fixtureEnv with
    update_deal_product_attachment := fun _ _ pr q =>
      .ok { c6Attachment with
            item_price := pr.getD c6Attachment.item_price,
            quantity := q.getD c6Attachment.quantity } }

/-- Standard profile with change policy = update-quantity-only. -/
def c6QtyOnlyConfig : Config :=
  { Config.standardProfile with w2_change_action := .updateQuantity }

/-! ## Helper lemmas -/

/-- The status computed by `link_submission` coincides with the spec's
    final-status rule on every action list. -/
theorem overall_status_eq_spec (l : List ProductAction) :
    overall_status l = spec_final_status l := by
  by_cases hS : ∃ a ∈ l, a.action_type = .attachedNew ∨
      a.action_type = .updatedQuantity ∨ a.action_type = .updatedPrice <;>
    by_cases hE : ∃ a ∈ l, a.action_type = .error <;>
      by_cases hK : ∃ a ∈ l, a.action_type = .skippedExists <;>
        simp_all [overall_status, spec_final_status, List.any_eq_true, or_assoc] <;>
          (obtain ⟨a, ha, h⟩ := hS
           exact ⟨a, ha, fun h1 h2 => (h.resolve_left h1).resolve_left h2⟩)

/-- The attempt counter of the retry loop never exceeds the starting count
    plus the remaining fuel. -/
theorem makeRequestLoop_calls_le {α : Type} (outcomes : Nat → AttemptOutcome α)
    (m : Nat) : ∀ fuel attempt calls sleeps,
    (makeRequestLoop outcomes m fuel attempt calls sleeps).2.1 ≤ calls + fuel := by
  intro fuel
  induction fuel with
  | zero => intro attempt calls sleeps; simp [makeRequestLoop]
  | succ n ih =>
      intro attempt calls sleeps
      unfold makeRequestLoop
      cases h : outcomes attempt <;> simp only [h] <;> (repeat' split) <;>
        first
          | (simp only []; omega)
          | (exact le_trans (ih _ _ _) (by omega))

/-- If no attachment in `atts` carries the product id, the first match in
    `atts ++ [att']` is `att'` whenever `att'` carries it. -/
theorem find_existing_attachment_append_of_none (pid : Int)
    (atts : List DealProductAttachment) (att' : DealProductAttachment)
    (h : find_existing_attachment pid atts = none)
    (hpid : att'.product_id = pid) :
    find_existing_attachment pid (atts ++ [att']) = some att' := by
  induction atts with
  | nil => simp [find_existing_attachment, List.find?, hpid]
  | cons a rest ih =>
      simp only [find_existing_attachment, List.cons_append, List.find?_cons] at h ⊢
      cases hpa : (a.product_id == pid) with
      | true => rw [hpa] at h; simp at h
      | false => rw [hpa] at h; exact ih h

/-! ## Claim theorems -/

/-- C1: the claim asserts that a company with W2 = 50 under
    W2_COUNT_TIMES_PRICE at price 2.0 and quantity mode W2_COUNT, with no
    existing attachment, yields an action of kind attached-new with
    quantity 50 and price 2.0 contributing 100.0 to total_value_added.
    Evaluating the code at exactly this scenario shows the bug: the catalog
    overwrite at product_linker.py line 298 replaces the attached_new kind
    with created_catalog before the value and status bookkeeping run, so the
    recorded action kind is created_catalog, total_value_added is 0, and the
    submission is reported failed_error. -/
theorem c1_attach_scenario_code_bug :
    ((link_submission c1Config fixtureEnv c1Submission false).1.toOption.map
        LinkResult.actions) =
      some [{ company_name := "Acme", w2_count := some 50,
              action_type := .createdCatalog, product_id := some 42,
              attachment_id := some 7, new_quantity := some 50,
              new_price := some 2 }] ∧
    ((link_submission c1Config fixtureEnv c1Submission false).1.toOption.map
        LinkResult.status) = some .failedError ∧
    ((link_submission c1Config fixtureEnv c1Submission false).1.toOption.map
        LinkResult.total_value_added) = some 0 := by
  refine ⟨by decide, by decide, ?_⟩
  simp +decide [link_submission, get_companies_to_process, c1Submission, c1Config,
    Config.standardProfile, c1Company, fixtureEnv, fixtureWorld, SuccessWorld.toEnv,
    fixtureDeal, process_all,
    process_company, process_company_inner, validate_company, format_product_name,
    pyStrip, rstripPeriods, find_or_create_product, calculate_quantity_and_price,
    reconcile_attachment, find_existing_attachment, attach_new_product, action_value]

/-- C2: for every submission whose deal exists and whose company list is
    non-empty, the outcome status returned by `link_submission` is exactly
    the claim's case analysis over the returned per-company action list:
    error actions with no successful action give failed-error, any successful
    attach/update action gives success even alongside errors, otherwise a
    skipped-exists action gives skipped, and otherwise failed-error. -/
theorem c2_overall_status_rule (cfg : Config) (env : Env) (sub : Submission)
    (dry : Bool) (d : Int) (deal : Deal) (atts : List DealProductAttachment)
    (res : LinkResult)
    (hd : sub.deal_id = some d)
    (hne : (get_companies_to_process cfg sub).isEmpty = false)
    (hdeal : env.get_deal_by_id d = .ok (some deal))
    (hatts : env.get_deal_products d = .ok atts)
    (hres : (link_submission cfg env sub dry).1 = .ok res) :
    res.status = spec_final_status res.actions := by
  unfold link_submission at hres
  rw [hd] at hres
  simp only [hne, hdeal, hatts, Bool.false_eq_true, if_false, Except.ok.injEq] at hres
  subst hres
  exact overall_status_eq_spec _

/-- C2 witness: on the concrete C1 scenario the returned status equals the
    spec's final-status rule applied to the returned actions. -/
theorem c2_overall_status_rule_witness :
    ((link_submission c1Config fixtureEnv c1Submission false).1.toOption.map
        LinkResult.status) =
    ((link_submission c1Config fixtureEnv c1Submission false).1.toOption.map
        (fun r => spec_final_status r.actions)) := by
  cases hres : (link_submission c1Config fixtureEnv c1Submission false).1 with
  | error e => rfl
  | ok res =>
      simp only [Except.toOption, Option.map]
      exact congrArg some
        (c2_overall_status_rule c1Config fixtureEnv c1Submission false 1 fixtureDeal []
          res rfl (by decide) rfl rfl hres)

/-- C3 counterexample: the claim quantifies over attachment lists that
    *contain* a matching attachment, but the code matches only on the *first*
    attachment with the product id.  Here the list contains an exact match
    (quantity 3, price 7) behind a mismatched first entry (quantity 3,
    price 9): with duplicate policy = error the reconciler returns an error
    action, not skipped-exists, and with duplicate policy = update it issues
    a mutating update call. -/
theorem c3_contains_match_counterexample :
    (∃ a ∈ c3Attachments, a.product_id = c3Product.id ∧ a.quantity = 3 ∧
        |a.item_price - 7| < (1 : ℚ)/100) ∧
    (reconcile_attachment c3ErrorConfig fixtureEnv c1Company c3Product c3Attachments
        3 7 1 false).1.toOption.map ProductAction.action_type = some .error ∧
    (reconcile_attachment c3UpdateConfig fixtureEnv c1Company c3Product c3Attachments
        3 7 1 false).2 = [.updateAttachment 1 6 (some 7) none] := by
  refine ⟨⟨c3SecondAttachment, by decide, by decide, by decide, ?_⟩, ?_, ?_⟩
  · norm_num [c3SecondAttachment, abs_sub_lt_iff]
  · norm_num [reconcile_attachment, find_existing_attachment, c3Attachments,
      c3FirstAttachment, c3SecondAttachment, c3Product, c3ErrorConfig,
      Config.standardProfile, handle_duplicate_attachment, update_attachment,
      c1Company, fixtureEnv, fixtureWorld, SuccessWorld.toEnv, abs_sub_lt_iff,
      lt_abs, Except.toOption]
  · norm_num [reconcile_attachment, find_existing_attachment, c3Attachments,
      c3FirstAttachment, c3SecondAttachment, c3Product, c3UpdateConfig,
      Config.standardProfile, handle_duplicate_attachment, update_attachment,
      c1Company, fixtureEnv, fixtureWorld, SuccessWorld.toEnv, abs_sub_lt_iff,
      lt_abs]

/-- C3 (amended): if the *first* attachment for the target product has the
    computed quantity and a price within 0.01 of the computed price, the
    reconciler returns skipped-exists and issues no remote call, for every
    duplicate policy and in dry run or not; consequently, after a successful
    attach (no prior match) whose created attachment echoes the computed
    quantity and price, re-running the reconciler on the extended attachment
    list returns skipped-exists with no further call. -/
theorem c3_first_match_skip_idempotent (cfg : Config) (env : Env)
    (company : AdditionalCompany) (product : PipedriveProduct)
    (atts : List DealProductAttachment) (q : Int) (p : ℚ) (d : Int) (dry : Bool) :
    (∀ a, find_existing_attachment product.id atts = some a → a.quantity = q →
      |a.item_price - p| < (1 : ℚ)/100 →
      reconcile_attachment cfg env company product atts q p d dry =
        (.ok { company_name := company.company_legal_name
               w2_count := company.w2_employee_count
               action_type := .skippedExists
               product_id := some product.id
               attachment_id := some a.id
               old_quantity := some a.quantity
               new_quantity := some q
               old_price := some a.item_price
               new_price := some p }, [])) ∧
    (∀ att', find_existing_attachment product.id atts = none →
      att'.product_id = product.id → att'.quantity = q → att'.item_price = p →
      reconcile_attachment cfg env company product (atts ++ [att']) q p d dry =
        (.ok { company_name := company.company_legal_name
               w2_count := company.w2_employee_count
               action_type := .skippedExists
               product_id := some product.id
               attachment_id := some att'.id
               old_quantity := some att'.quantity
               new_quantity := some q
               old_price := some att'.item_price
               new_price := some p }, [])) := by
  constructor
  · intro a hfind hq hp
    simp only [reconcile_attachment, hfind, handle_duplicate_attachment]
    rw [if_pos ⟨hq, hp⟩]
  · intro att' hnone hpid hq hp
    simp only [reconcile_attachment,
      find_existing_attachment_append_of_none _ _ _ hnone hpid,
      handle_duplicate_attachment]
    rw [if_pos ⟨hq, by rw [hp, sub_self, abs_zero]; norm_num⟩]

/-- C3 witness: a single exactly-matching attachment is skipped with no
    remote call under duplicate policy = error. -/
theorem c3_first_match_skip_idempotent_witness :
    reconcile_attachment c3ErrorConfig fixtureEnv c1Company c3Product
        [c3SecondAttachment] 3 7 1 false =
      (.ok { company_name := "Acme"
             w2_count := some 50
             action_type := .skippedExists
             product_id := some 42
             attachment_id := some 7
             old_quantity := some 3
             new_quantity := some 3
             old_price := some 7
             new_price := some 7 }, []) :=
  (c3_first_match_skip_idempotent c3ErrorConfig fixtureEnv c1Company c3Product
      [c3SecondAttachment] 3 7 1 false).1 c3SecondAttachment rfl rfl
    (by norm_num [c3SecondAttachment])

/-- C4: the claim says non-429 4xx/5xx responses raise immediately with no
    retry, no backoff and endpoint/status context.  The code instead lets
    `raise_for_status`'s `HTTPError` fall into the generic
    `RequestException` retry handler: on an all-500 transport it makes 3
    attempts, sleeps 1s and 2s, and finally raises
    `APIError("Request failed: ...")` with no status attached. -/
theorem c4_non_retryable_retried_code_bug :
    makeRequest c4Outcomes 3 =
      (.error (.apiError "Request failed: HTTP 500" none), 3, [1, 2]) := by rfl

/-- C5: the claim says a 404 on a deal lookup makes `get_deal_by_id` return
    None and the orchestrator report an orphaned outcome.  In the code a 404
    becomes an `HTTPError` retried inside `_make_request` and re-raised as a
    plain `APIError` after 3 attempts, so the dead `except HTTPError` 404
    handler never runs: `get_deal_by_id` raises, and `link_submission`
    reports failed_error ("Failed to verify deal"), not orphaned, even with
    skip-orphans configured. -/
theorem c5_deal_404_code_bug :
    getDealByIdRaw c404DealOutcomes 7 =
      (.error (.apiError "Request failed: HTTP 404" none), 3, [1, 2]) ∧
    ((link_submission Config.standardProfile c5Env c5Submission false).1.toOption.map
        LinkResult.status) = some .failedError ∧
    Config.standardProfile.skip_orphaned_deals = true := ⟨rfl, by decide, rfl⟩

/-- C6: under duplicate policy = update, a change issues exactly one update
    call carrying only the selected changed fields: with change policy =
    update-both and both fields differing, the single call carries both
    price and quantity; with change policy = update-quantity-only, existing
    (10, 5.0) and computed (12, 5.0), the single call carries quantity = 12
    and no price field, the result kind is updated-quantity, and the action
    reports old_price = new_price = 5.0. -/
theorem c6_update_single_call (cfgA cfgB : Config) (envA envB : Env)
    (cA cB : AdditionalCompany) (prodA prodB : PipedriveProduct)
    (eA eB : DealProductAttachment) (qA : Int) (pA : ℚ) (dA dB : Int)
    (uA : DealProductAttachment)
    (hA : cfgA.duplicate_attachment_action = .update)
    (hA2 : cfgA.w2_change_action = .updateBoth)
    (hAq : eA.quantity ≠ qA)
    (hAp : (1 : ℚ)/100 < |eA.item_price - pA|)
    (hAup : envA.update_deal_product_attachment dA eA.id (some pA) (some qA) = .ok uA)
    (hB : cfgB.duplicate_attachment_action = .update)
    (hB2 : cfgB.w2_change_action = .updateQuantity)
    (hBq : eB.quantity = 10) (hBp : eB.item_price = 5)
    (hBup : envB.update_deal_product_attachment dB eB.id none (some 12) =
      .ok { eB with quantity := 12 }) :
    (handle_duplicate_attachment cfgA envA cA prodA eA qA pA dA false).2 =
      [.updateAttachment dA eA.id (some pA) (some qA)] ∧
    handle_duplicate_attachment cfgB envB cB prodB eB 12 5 dB false =
      (.ok { company_name := cB.company_legal_name
             w2_count := cB.w2_employee_count
             action_type := .updatedQuantity
             product_id := some prodB.id
             attachment_id := some eB.id
             old_quantity := some 10
             new_quantity := some 12
             old_price := some 5
             new_price := some 5 }, [.updateAttachment dB eB.id none (some 12)]) := by
  constructor
  · have hqt : (eA.quantity != qA) = true := by simp [hAq]
    have hgt : ((100 : ℚ)⁻¹ < |eA.item_price - pA|) := by
      rw [show ((100 : ℚ)⁻¹) = 1/100 by norm_num]; exact hAp
    simp only [handle_duplicate_attachment]
    rw [if_neg (fun h => hAq h.1), hA]
    simp [update_attachment, hA2, hqt, hgt, hAup]
  · have hnotgt : ¬((100 : ℚ)⁻¹ < |eB.item_price - 5|) := by
      rw [hBp, sub_self, abs_zero]; norm_num
    have hqt : (eB.quantity != 12) = true := by simp [hBq]
    have hne : eB.quantity ≠ 12 := by rw [hBq]; decide
    simp only [handle_duplicate_attachment]
    rw [if_neg (fun h => hne h.1), hB]
    simp [update_attachment, hB2, hqt, hnotgt, hBup, hBq, hBp]

/-- C6 witness: concrete instances of both halves (update-both on a (3, 9)
    attachment against computed (5, 7); update-quantity-only on a (10, 5)
    attachment against computed (12, 5)). -/
theorem c6_update_single_call_witness :
    (handle_duplicate_attachment Config.standardProfile fixtureEnv c1Company c3Product
        c3FirstAttachment 5 7 1 false).2 =
      [.updateAttachment 1 6 (some 7) (some 5)] ∧
    handle_duplicate_attachment c6QtyOnlyConfig c6Env c1Company c3Product
        c6Attachment 12 5 1 false =
      (.ok { company_name := "Acme", w2_count := some 50,
             action_type := .updatedQuantity, product_id := some 42,
             attachment_id := some 7, old_quantity := some 10,
             new_quantity := some 12, old_price := some 5, new_price := some 5 },
       [.updateAttachment 1 7 none (some 12)]) :=
  c6_update_single_call Config.standardProfile c6QtyOnlyConfig fixtureEnv c6Env
    c1Company c1Company c3Product c3Product c3FirstAttachment c6Attachment 5 7 1 1
    { id := 6, product_id := 0, deal_id := 1, item_price := 7, quantity := 5,
      sum_value := 0, name := "" }
    rfl rfl (by decide) (by norm_num [c3FirstAttachment, lt_abs]) rfl
    rfl rfl rfl rfl (by rfl)

/-- C7 counterexample: the claim's backoff schedule "1s, 2s, 4s for attempts
    0, 1, 2" never happens: a 429 on the final attempt raises instead of
    sleeping, so an all-429 run sleeps [1, 2], not [1, 2, 4]. -/
theorem c7_backoff_counterexample :
    makeRequest c7AllRateLimited 3 =
      (.error (.rateLimitError "Rate limit exceeded after retries" 429), 3, [1, 2]) ∧
    ([1, 2] : List Nat) ≠ [1, 2, 4] := ⟨rfl, by decide⟩

/-- C7 (amended): every call has attempt budget 3 and the counter increments
    once per attempt; on 429 the gateway sleeps 2^attempt (1s, 2s) for
    attempts 0 and 1 and retries, while a 429 on the final attempt raises a
    rate-limit failure without sleeping; a 429 followed by success returns
    the success result with 2 attempts counted and one 1s sleep. -/
theorem c7_retry_budget_amended {α : Type} (f g : Nat → AttemptOutcome α)
    (b r : α)
    (hg0 : g 0 = .httpStatus 429 b) (hg1 : g 1 = .httpStatus 200 r)
    (hf : ∀ i, i < 3 → f i = .httpStatus 429 b) :
    (∀ k : Nat → AttemptOutcome α, (makeRequest k 3).2.1 ≤ 3) ∧
    makeRequest g 3 = (.ok r, 2, [1]) ∧
    makeRequest f 3 =
      (.error (.rateLimitError "Rate limit exceeded after retries" 429), 3, [1, 2]) := by
  refine ⟨fun k => makeRequestLoop_calls_le k 3 3 0 0 [], ?_, ?_⟩
  · simp +decide [makeRequest, makeRequestLoop, hg0, hg1]
  · simp +decide [makeRequest, makeRequestLoop, hf 0 (by omega), hf 1 (by omega),
      hf 2 (by omega)]

/-- C7 witness: the amended statement at a concrete 429-then-success
    transport and a concrete all-429 transport. -/
theorem c7_retry_budget_amended_witness :
    (∀ k : Nat → AttemptOutcome Nat, (makeRequest k 3).2.1 ≤ 3) ∧
    makeRequest c7ThenSuccess 3 = (.ok 77, 2, [1]) ∧
    makeRequest (fun _ => AttemptOutcome.httpStatus 429 0) 3 =
      (.error (.rateLimitError "Rate limit exceeded after retries" 429), 3, [1, 2]) :=
  c7_retry_budget_amended (fun _ => AttemptOutcome.httpStatus 429 0) c7ThenSuccess 0 77
    rfl rfl (fun _ _ => rfl)

/-- C8 counterexample: with the standard profile's minimum of 0 (and the
    skip flags off), a W2 count of -1 is below the configured minimum yet
    validation passes, because the code enforces the minimum only when it is
    positive — a guard the claim states for the maximum but not the
    minimum. -/
theorem c8_min_guard_counterexample :
    validate_company c8Config c8Company = none ∧
    (-1 : Int) < c8Config.min_w2_count ∧
    c8Company.w2_employee_count = some (-1) := ⟨by decide, by decide, by decide⟩

/-- C8 (amended): validation fails exactly when the W2 count is missing with
    skip-missing configured, zero with skip-zero configured, below the
    configured minimum with the minimum positive, or above the configured
    maximum with the maximum positive; and whenever it fails,
    `_process_company` returns an error action carrying the message and
    issues no remote call. -/
theorem c8_validation_characterization (cfg : Config) (env : Env)
    (company : AdditionalCompany) (d : Int)
    (atts : List DealProductAttachment) (dry : Bool) :
    ((validate_company cfg company).isSome ↔
      (company.w2_employee_count = none ∧ cfg.skip_missing_w2 = true) ∨
      ∃ n, company.w2_employee_count = some n ∧
        ((n = 0 ∧ cfg.skip_zero_w2 = true) ∨
         (0 < cfg.min_w2_count ∧ n < cfg.min_w2_count) ∨
         (0 < cfg.max_w2_count ∧ cfg.max_w2_count < n))) ∧
    ∀ msg, validate_company cfg company = some msg →
      process_company cfg env company d atts dry =
        ({ company_name := company.company_legal_name
           w2_count := company.w2_employee_count
           action_type := .error
           error_message := some msg }, []) := by
  constructor
  · unfold validate_company
    cases hw : company.w2_employee_count with
    | none => cases hsm : cfg.skip_missing_w2 <;> simp
    | some n =>
        by_cases h1 : n = 0 ∧ cfg.skip_zero_w2 = true <;>
          by_cases h2 : 0 < cfg.min_w2_count ∧ n < cfg.min_w2_count <;>
            by_cases h3 : 0 < cfg.max_w2_count ∧ cfg.max_w2_count < n <;>
              simp [h1, h2, h3]
  · intro msg hmsg
    unfold process_company process_company_inner
    rw [hmsg]

/-- C8 witness: a company with no W2 count under the standard profile
    (skip-missing on) yields an error action with an empty call log. -/
theorem c8_validation_characterization_witness :
    process_company Config.standardProfile fixtureEnv
        { company_legal_name := "X", w2_employee_count := none } 1 [] false =
      ({ company_name := "X", w2_count := none, action_type := .error,
         error_message := some "Missing W2 employee count" }, []) :=
  (c8_validation_characterization Config.standardProfile fixtureEnv
      { company_legal_name := "X", w2_employee_count := none } 1 [] false).2
    "Missing W2 employee count" rfl

/-- C10: when the existing attachment matches the computed quantity and its
    price differs from the computed price by exactly 0.01, the duplicate
    check's strict less-than classifies a mismatch while the change
    handler's strict greater-than classifies the price unchanged: under
    duplicate policy = update the result is skipped-exists with no call (for
    every change policy), and under duplicate policy = force-new a second
    attach call for the same product is issued. -/
theorem c10_tolerance_boundary (cfgU cfgF : Config) (env : Env)
    (company : AdditionalCompany) (product : PipedriveProduct)
    (a : DealProductAttachment) (q : Int) (p : ℚ) (d : Int)
    (hq : a.quantity = q) (hp : |a.item_price - p| = 1/100)
    (hU : cfgU.duplicate_attachment_action = .update)
    (hF : cfgF.duplicate_attachment_action = .forceNew) :
    handle_duplicate_attachment cfgU env company product a q p d false =
      (.ok { company_name := company.company_legal_name
             w2_count := company.w2_employee_count
             action_type := .skippedExists
             product_id := some product.id
             attachment_id := some a.id
             old_quantity := some a.quantity
             new_quantity := some q
             old_price := some a.item_price
             new_price := some p }, []) ∧
    (handle_duplicate_attachment cfgF env company product a q p d false).2 =
      [.attachProduct d product.id p q
        (some ("AUTO_ATTACHED|company:" ++ company.company_legal_name))] := by
  have hnotlt : ¬(|a.item_price - p| < 1/100) := by rw [hp]; exact lt_irrefl _
  have hnotgt : ¬((100 : ℚ)⁻¹ < |a.item_price - p|) := by
    rw [hp]; norm_num
  have hqf : (a.quantity != q) = false := by simp [hq]
  constructor
  · simp only [handle_duplicate_attachment]
    rw [if_neg (fun h => hnotlt h.2), hU]
    cases hw : cfgU.w2_change_action <;>
      simp [update_attachment, hw, hqf, hnotgt]
  · simp only [handle_duplicate_attachment]
    rw [if_neg (fun h => hnotlt h.2), hF]
    simp only [attach_new_product]
    cases henv : env.attach_product_to_deal d product.id p q
        (some ("AUTO_ATTACHED|company:" ++ company.company_legal_name)) with
    | ok att => simp [henv]
    | error e => cases he : e.isAPIError <;> simp [henv, he]

/-- C10 witness: existing price 5.01 against computed price 5 with matching
    quantity 50: skipped with no call under update, one attach call under
    force-new. -/
theorem c10_tolerance_boundary_witness :
    handle_duplicate_attachment Config.standardProfile fixtureEnv c1Company c3Product
        c10Attachment 50 5 1 false =
      (.ok { company_name := "Acme", w2_count := some 50,
             action_type := .skippedExists, product_id := some 42,
             attachment_id := some 7, old_quantity := some 50,
             new_quantity := some 50, old_price := some (501/100),
             new_price := some 5 }, []) ∧
    (handle_duplicate_attachment c10ForceNewConfig fixtureEnv c1Company c3Product
        c10Attachment 50 5 1 false).2 =
      [.attachProduct 1 42 5 50 (some "AUTO_ATTACHED|company:Acme")] :=
  c10_tolerance_boundary Config.standardProfile c10ForceNewConfig fixtureEnv c1Company
    c3Product c10Attachment 50 5 1 rfl
    (by rw [show c10Attachment.item_price - 5 = 1/100 from by norm_num [c10Attachment],
          abs_of_pos (by norm_num : (0 : ℚ) < 1/100)])
    rfl rfl

/-- In a success world, the reconciliation step returns an ok action in both
    dry and real mode with the same action kind; the dry run issues no call
    and the real run issues only mutating calls. -/
theorem reconcile_toEnv_dry_real (cfg : Config) (w : SuccessWorld)
    (company : AdditionalCompany) (product : PipedriveProduct)
    (atts : List DealProductAttachment) (q : Int) (p : ℚ) (d : Int) :
    ∃ aD aR logR,
      reconcile_attachment cfg w.toEnv company product atts q p d true = (.ok aD, []) ∧
      reconcile_attachment cfg w.toEnv company product atts q p d false = (.ok aR, logR) ∧
      aD.action_type = aR.action_type ∧
      ∀ c ∈ logR, c.isMutating = true := by
  unfold reconcile_attachment
  cases hfind : find_existing_attachment product.id atts with
  | none =>
      refine ⟨_, _, _, rfl, rfl, ?_, ?_⟩ <;>
        simp [attach_new_product, SuccessWorld.toEnv, RemoteCall.isMutating]
  | some e =>
      unfold handle_duplicate_attachment
      dsimp only
      by_cases hmatch : e.quantity = q ∧ |e.item_price - p| < (1 : ℚ)/100
      · rw [if_pos hmatch, if_pos hmatch]
        exact ⟨_, _, [], rfl, rfl, rfl, by simp⟩
      · rw [if_neg hmatch, if_neg hmatch]
        cases hpol : cfg.duplicate_attachment_action with
        | skip => exact ⟨_, _, [], rfl, rfl, rfl, by simp⟩
        | error => exact ⟨_, _, [], rfl, rfl, rfl, by simp⟩
        | forceNew =>
            refine ⟨_, _, _, rfl, rfl, ?_, ?_⟩ <;>
              simp [attach_new_product, SuccessWorld.toEnv, RemoteCall.isMutating]
        | update =>
            unfold update_attachment
            dsimp only
            cases hw : cfg.w2_change_action with
            | skip => exact ⟨_, _, [], rfl, rfl, rfl, by simp⟩
            | updateQuantity =>
                dsimp only
                by_cases hsk : (!(e.quantity != q) && !false) = true
                · rw [if_pos hsk, if_pos hsk]
                  exact ⟨_, _, [], rfl, rfl, rfl, by simp⟩
                · rw [if_neg hsk, if_neg hsk]
                  refine ⟨_, _, _, rfl, rfl, ?_, ?_⟩ <;>
                    simp [SuccessWorld.toEnv, RemoteCall.isMutating]
            | updatePrice =>
                dsimp only
                by_cases hsk : (!false &&
                    !(decide ((1 : ℚ)/100 < |e.item_price - p|))) = true
                · rw [if_pos hsk, if_pos hsk]
                  exact ⟨_, _, [], rfl, rfl, rfl, by simp⟩
                · rw [if_neg hsk, if_neg hsk]
                  refine ⟨_, _, _, rfl, rfl, ?_, ?_⟩ <;>
                    simp [SuccessWorld.toEnv, RemoteCall.isMutating]
            | updateBoth =>
                dsimp only
                by_cases hsk : (!(e.quantity != q) &&
                    !(decide ((1 : ℚ)/100 < |e.item_price - p|))) = true
                · rw [if_pos hsk, if_pos hsk]
                  exact ⟨_, _, [], rfl, rfl, rfl, by simp⟩
                · rw [if_neg hsk, if_neg hsk]
                  refine ⟨_, _, _, rfl, rfl, ?_, ?_⟩ <;>
                    simp [SuccessWorld.toEnv, RemoteCall.isMutating]



/-- Catalog lookup in a success world when the search finds the product. -/
theorem find_or_create_toEnv_found (cfg : Config) (w : SuccessWorld) (n : String)
    (dry : Bool) (prod : PipedriveProduct) (hs : w.search n = some prod) :
    find_or_create_product cfg w.toEnv n dry =
      (.ok (some prod, some .foundCatalog), [.searchProduct n]) := by
  simp [find_or_create_product, SuccessWorld.toEnv, hs]

/-- Catalog lookup in a success world when the product is absent and
    auto-create is off. -/
theorem find_or_create_toEnv_noauto (cfg : Config) (w : SuccessWorld) (n : String)
    (dry : Bool) (hs : w.search n = none) (hauto : cfg.auto_create_products = false) :
    find_or_create_product cfg w.toEnv n dry =
      (.ok (none, none), [.searchProduct n]) := by
  simp [find_or_create_product, SuccessWorld.toEnv, hs, hauto]

/-- Catalog lookup in a success world, product absent, auto-create on, dry
    run: the placeholder product id 999999 is used and no create call is
    issued. -/
theorem find_or_create_toEnv_auto_dry (cfg : Config) (w : SuccessWorld) (n : String)
    (hs : w.search n = none) (hauto : cfg.auto_create_products = true) :
    find_or_create_product cfg w.toEnv n true =
      (.ok (some { id := 999999, name := n, code := none, active_flag := true },
        some .createdCatalog), [.searchProduct n]) := by
  simp [find_or_create_product, SuccessWorld.toEnv, hs, hauto]

/-- Catalog lookup in a success world, product absent, auto-create on, real
    run: the world's created product is returned after a create call. -/
theorem find_or_create_toEnv_auto_real (cfg : Config) (w : SuccessWorld) (n : String)
    (hs : w.search n = none) (hauto : cfg.auto_create_products = true) :
    find_or_create_product cfg w.toEnv n false =
      (.ok (some (w.created n none cfg.product_active_flag cfg.product_visible_to),
        some .createdCatalog),
       [.searchProduct n,
        .createProduct n none cfg.product_active_flag cfg.product_visible_to]) := by
  simp [find_or_create_product, SuccessWorld.toEnv, hs, hauto]

/-- No attachment is found when no list entry carries the product id. -/
theorem find_existing_attachment_eq_none (pid : Int)
    (atts : List DealProductAttachment) (h : ∀ a ∈ atts, a.product_id ≠ pid) :
    find_existing_attachment pid atts = none := by
  rw [find_existing_attachment, List.find?_eq_none]
  intro a ha
  simpa using h a ha

/-- Filtering the reads out of an all-mutating call log leaves nothing. -/
theorem filter_not_mutating_eq_nil (log : List RemoteCall)
    (h : ∀ c ∈ log, c.isMutating = true) :
    log.filter (fun rc => !rc.isMutating) = [] := by
  induction log with
  | nil => rfl
  | cons c rest ih =>
      have hc := h c (by simp)
      simp [List.filter, hc, ih (fun x hx => h x (by simp [hx]))]



/-- Per-company dry-run/real-run equivalence in a success world: same action
    kind, the dry log is the real log with mutating calls removed, and the
    dry run issues no mutating call (given fresh created-product ids). -/
theorem process_company_dry_real (cfg : Config) (w : SuccessWorld)
    (company : AdditionalCompany) (d : Int) (atts : List DealProductAttachment)
    (hfresh : fresh_create_ids cfg w atts company) :
    (process_company cfg w.toEnv company d atts true).1.action_type =
      (process_company cfg w.toEnv company d atts false).1.action_type ∧
    (process_company cfg w.toEnv company d atts true).2 =
      ((process_company cfg w.toEnv company d atts false).2.filter
        (fun rc => !rc.isMutating)) ∧
    ((process_company cfg w.toEnv company d atts true).2.all
      (fun rc => !rc.isMutating)) = true := by
  unfold process_company process_company_inner
  cases hv : validate_company cfg company with
  | some msg => simp
  | none =>
      dsimp only
      cases hs : w.search (format_product_name cfg company.company_legal_name) with
      | some prod =>
          rw [find_or_create_toEnv_found cfg w _ true prod hs,
              find_or_create_toEnv_found cfg w _ false prod hs]
          dsimp only
          obtain ⟨aD, aR, logR, hD, hR, hkind, hmut⟩ :=
            reconcile_toEnv_dry_real cfg w company prod atts
              (calculate_quantity_and_price cfg company.w2_employee_count).1
              (calculate_quantity_and_price cfg company.w2_employee_count).2 d
          rw [hD, hR]
          dsimp only
          rw [hkind]
          refine ⟨by split <;> first | rfl | exact hkind, ?_,
            by simp [RemoteCall.isMutating]⟩
          simp [List.filter, RemoteCall.isMutating, filter_not_mutating_eq_nil logR hmut]
          exact fun a ha => hmut a ha
      | none =>
          cases hauto : cfg.auto_create_products with
          | false =>
              rw [find_or_create_toEnv_noauto cfg w _ true hs hauto,
                  find_or_create_toEnv_noauto cfg w _ false hs hauto]
              simp [RemoteCall.isMutating]
          | true =>
              rw [find_or_create_toEnv_auto_dry cfg w _ hs hauto,
                  find_or_create_toEnv_auto_real cfg w _ hs hauto]
              dsimp only
              have hfr := hfresh hs hauto
              have hfD : find_existing_attachment 999999 atts = none :=
                find_existing_attachment_eq_none _ _ (fun a ha => (hfr a ha).1)
              have hfR : find_existing_attachment
                  (w.created (format_product_name cfg company.company_legal_name)
                    none cfg.product_active_flag cfg.product_visible_to).id atts = none :=
                find_existing_attachment_eq_none _ _ (fun a ha => (hfr a ha).2)
              unfold reconcile_attachment
              rw [hfD, hfR]
              dsimp only
              simp [attach_new_product, SuccessWorld.toEnv, RemoteCall.isMutating]



/-- The per-company equivalence lifted over the company loop. -/
theorem process_all_dry_real (cfg : Config) (w : SuccessWorld) (d : Int)
    (atts : List DealProductAttachment) (companies : List AdditionalCompany)
    (h : ∀ c ∈ companies, fresh_create_ids cfg w atts c) :
    ((process_all cfg w.toEnv d atts true companies).1.map ProductAction.action_type =
      (process_all cfg w.toEnv d atts false companies).1.map ProductAction.action_type) ∧
    (process_all cfg w.toEnv d atts true companies).2.2 =
      ((process_all cfg w.toEnv d atts false companies).2.2.filter
        (fun rc => !rc.isMutating)) ∧
    ((process_all cfg w.toEnv d atts true companies).2.2.all
      (fun rc => !rc.isMutating)) = true := by
  induction companies with
  | nil => simp [process_all]
  | cons c rest ih =>
      obtain ⟨h1, h2, h3⟩ := process_company_dry_real cfg w c d atts (h c (by simp))
      obtain ⟨ih1, ih2, ih3⟩ := ih (fun x hx => h x (by simp [hx]))
      simp only [process_all]
      refine ⟨by simp [h1, ih1], by simp [List.filter_append, h2, ih2],
        by simp [List.all_append, h3, ih3]⟩

/-- A predicate on action kinds tested by `any` factors through the list of
    kinds. -/
theorem any_comp_action_type (l : List ProductAction)
    (p : ProductActionType → Bool) :
    l.any (fun a => p a.action_type) = (l.map ProductAction.action_type).any p := by
  induction l with
  | nil => rfl
  | cons a rest ih => simp [ih]

/-- The overall status depends only on the list of action kinds. -/
theorem overall_status_eq_of_map_eq {l1 l2 : List ProductAction}
    (h : l1.map ProductAction.action_type = l2.map ProductAction.action_type) :
    overall_status l1 = overall_status l2 := by
  have key : ∀ p : ProductActionType → Bool,
      l1.any (fun a => p a.action_type) = l2.any (fun a => p a.action_type) := by
    intro p
    rw [any_comp_action_type l1 p, h, ← any_comp_action_type l2 p]
  have hS := key (fun t => t == ProductActionType.attachedNew ||
    t == ProductActionType.updatedQuantity || t == ProductActionType.updatedPrice)
  have hE := key (fun t => t == ProductActionType.error)
  have hK := key (fun t => t == ProductActionType.skippedExists)
  simp only [] at hS hE hK
  unfold overall_status
  rw [hS, hE, hK]



/-- C9: in every world where all remote calls succeed (and created-product
    ids are fresh for the deal's attachment list), a dry run of
    `link_submission` produces the same status, the same per-company action
    kinds and the same companies-processed count as the real run; the dry
    run performs no mutating remote call, and its call log is exactly the
    real run's log with the mutating calls removed (so its counter reflects
    only the read calls actually issued). -/
theorem c9_dry_run_equivalence (cfg : Config) (w : SuccessWorld) (sub : Submission)
    (hfresh : ∀ d, sub.deal_id = some d →
      ∀ c ∈ get_companies_to_process cfg sub,
        fresh_create_ids cfg w (w.deal_products d) c) :
    ((link_submission cfg w.toEnv sub true).1.toOption.map LinkResult.status =
      (link_submission cfg w.toEnv sub false).1.toOption.map LinkResult.status) ∧
    ((link_submission cfg w.toEnv sub true).1.toOption.map
        (fun r => r.actions.map ProductAction.action_type) =
      (link_submission cfg w.toEnv sub false).1.toOption.map
        (fun r => r.actions.map ProductAction.action_type)) ∧
    ((link_submission cfg w.toEnv sub true).1.toOption.map
        LinkResult.companies_processed =
      (link_submission cfg w.toEnv sub false).1.toOption.map
        LinkResult.companies_processed) ∧
    ((link_submission cfg w.toEnv sub true).2.all (fun rc => !rc.isMutating)) = true ∧
    (link_submission cfg w.toEnv sub true).2 =
      (link_submission cfg w.toEnv sub false).2.filter (fun rc => !rc.isMutating) := by
  unfold link_submission
  cases hd : sub.deal_id with
  | none => simp
  | some d =>
      dsimp only
      cases hne : (get_companies_to_process cfg sub).isEmpty with
      | true => simp [RemoteCall.isMutating]
      | false =>
          simp only [Bool.false_eq_true, if_false]
          rw [show Env.get_deal_by_id w.toEnv d = .ok (w.deal d) from rfl]
          cases hdeal : w.deal d with
          | none =>
              cases ho : cfg.skip_orphaned_deals <;>
                simp [RemoteCall.isMutating, List.filter]
          | some deal =>
              dsimp only
              rw [show Env.get_deal_products w.toEnv d = .ok (w.deal_products d) from rfl]
              dsimp only
              obtain ⟨e1, e2, e3⟩ := process_all_dry_real cfg w d (w.deal_products d)
                (get_companies_to_process cfg sub) (hfresh d hd)
              refine ⟨?_, ?_, ?_, ?_, ?_⟩
              · simp [overall_status_eq_of_map_eq e1, Except.toOption]
              · simp [e1, Except.toOption]
              · simp [Except.toOption]
              · rw [List.all_append, Bool.and_eq_true]
                exact ⟨rfl, e3⟩
              · simp [List.filter, RemoteCall.isMutating, e2]



/-- C9 witness: the equivalence at the concrete C1 scenario world. -/
theorem c9_dry_run_equivalence_witness :
    ((link_submission c1Config fixtureWorld.toEnv c1Submission true).1.toOption.map
        LinkResult.status =
      (link_submission c1Config fixtureWorld.toEnv c1Submission false).1.toOption.map
        LinkResult.status) ∧
    ((link_submission c1Config fixtureWorld.toEnv c1Submission true).1.toOption.map
        (fun r => r.actions.map ProductAction.action_type) =
      (link_submission c1Config fixtureWorld.toEnv c1Submission false).1.toOption.map
        (fun r => r.actions.map ProductAction.action_type)) ∧
    ((link_submission c1Config fixtureWorld.toEnv c1Submission true).1.toOption.map
        LinkResult.companies_processed =
      (link_submission c1Config fixtureWorld.toEnv c1Submission false).1.toOption.map
        LinkResult.companies_processed) ∧
    ((link_submission c1Config fixtureWorld.toEnv c1Submission true).2.all
      (fun rc => !rc.isMutating)) = true ∧
    (link_submission c1Config fixtureWorld.toEnv c1Submission true).2 =
      (link_submission c1Config fixtureWorld.toEnv c1Submission false).2.filter
        (fun rc => !rc.isMutating) :=
  c9_dry_run_equivalence c1Config fixtureWorld c1Submission
    (fun _ _ _ _ _ _ a ha => by simp [fixtureWorld] at ha)

end Linker
